import Mathlib

/-!
Shallow embedding of the Bitbucket-to-Port synchronization script (src/app.py).

The script's core is a rate-limited, cursor-paginated fetcher
(get_paginated_resource), pure mapping functions from source JSON objects to
sink entities (process_pullrequest_entities and friends), a README assembler
(parse_repository_file_response / get_repository_readme), a timestamp
converter (convert_to_datetime) and an idempotent per-project webhook
provisioning step (get_or_create_project_webhook).

Modelling conventions:
- HTTP traffic is modelled by a server function from the request's start
  cursor to a response (a page envelope or an HTTP error status).  A page
  envelope carries the keys the script reads: values, lines, nextPageStart.
- The Python while-True generator loop is embedded with explicit fuel; a
  result of none means the fuel was exhausted before the loop ended.
- time.time() and time.sleep are modelled by a rational-valued clock in
  RateState; sleeping advances the clock and is recorded in the slept field.
  Network requests themselves are modelled as instantaneous.
- The mutable query-parameter dict is modelled by the Params structure,
  threaded in and out of each fetch (the Python code mutates the caller's
  dict in place whenever the passed dict is non-empty).
-/

/-- RATE_LIMIT from the source: maximum number of requests allowed per window. -/
def RATE_LIMIT : Nat := 1000

/-- RATE_PERIOD from the source: rate limit reset period in seconds. -/
def RATE_PERIOD : Rat := 3600

/-- One line of a line-oriented file-content response; the text key is optional
(the script reads it with line.get with default empty string). -/
structure FileLine where
  text : Option String
deriving DecidableEq

/-- A page envelope of the source API, restricted to the keys the script reads:
values (the batch), lines (README file content) and nextPageStart (cursor). -/
structure Page (α : Type) where
  values : List α
  lines : Option (List FileLine)
  nextPageStart : Option Nat
deriving DecidableEq

/-- A response to one page request: a page, or an HTTP error status raised by
raise_for_status. -/
inductive Response (α : Type) where
  | ok (page : Page α)
  | httpError (status : Nat)
deriving DecidableEq

/-- The query-parameter dict, restricted to the keys the script uses:
state (set by get_repository_pull_requests), limit and start (set by
get_paginated_resource). -/
structure Params where
  state : Option String
  limit : Option Nat
  start : Option Nat
deriving DecidableEq

/-- Python truthiness of the params dict (params or ... replaces a falsy dict,
i.e. an empty one, by a fresh dict). -/
def Params.isEmptyDict (p : Params) : Bool :=
  p.state.isNone && p.limit.isNone && p.start.isNone

/-- A params dict with no keys set. -/
def emptyParams : Params :=
  { state := none, limit := none, start := none }

/-- The global rate-limiting state: request_count and rate_limit_start from the
source, together with a model clock (now) and the total time slept. -/
structure RateState where
  requestCount : Nat
  rateLimitStart : Rat
  now : Rat
  slept : Rat
deriving DecidableEq

/-- The module-initialization state: request_count = 0 and
rate_limit_start = time.time(), with the model clock started at 0. -/
def initialRateState : RateState :=
  { requestCount := 0, rateLimitStart := 0, now := 0, slept := 0 }

/-- The rate-limit check at the top of get_paginated_resource: if
request_count has reached RATE_LIMIT, sleep for the remainder of the window
if it has not yet elapsed, then reset the count and start a new window. -/
def rateGate (s : RateState) : RateState :=
  if RATE_LIMIT ≤ s.requestCount then
    let elapsed := s.now - s.rateLimitStart
    let s1 :=
      if elapsed < RATE_PERIOD then
        { s with now := s.now + (RATE_PERIOD - elapsed),
                 slept := s.slept + (RATE_PERIOD - elapsed) }
      else s
    { s1 with requestCount := 0, rateLimitStart := s1.now }
  else s

/-- How a fetch's generator loop ended: normal break, silent 404 termination,
or a re-raised HTTP error. -/
inductive Outcome where
  | done
  | notFound
  | fatal (status : Nat)
deriving DecidableEq

/-- One yielded item: the values list, or (in full-response mode) the whole
page envelope. -/
inductive Batch (α : Type) where
  | values (vs : List α)
  | full (page : Page α)
deriving DecidableEq

/-- The observable behaviour of one get_paginated_resource call: the yielded
batches in order, how the loop ended, the final state of the (mutated) params
dict, the final rate state, and the start cursor sent with each request. -/
structure FetchResult (α : Type) where
  batches : List (Batch α)
  outcome : Outcome
  finalParams : Params
  rate : RateState
  requestedStarts : List (Option Nat)
deriving DecidableEq

/-- Python truthiness of the nextPageStart value (0 and absent are falsy). -/
def truthy : Option Nat → Bool
  | none => false
  | some c => c != 0

/-- The params update at the top of the loop body: if the next_page_start
variable is truthy, write it into the start key of the params dict. -/
def updParams (params : Params) (npsVar : Option Nat) : Params :=
  if truthy npsVar then { params with start := npsVar } else params

/-- The start cursor effectively sent by the next request. -/
def effStart (params : Params) (npsVar : Option Nat) : Option Nat :=
  if truthy npsVar then npsVar else params.start

/-- What one loop iteration yields for a page. -/
def pageBatch (fullResp : Bool) (p : Page α) : Batch α :=
  if fullResp then Batch.full p else Batch.values p.values

/-- The while-True loop of get_paginated_resource.  npsVar is the
next_page_start local variable (None before the first iteration).  On an HTTP
error the generator either returns (404) or re-raises (any other status); on
success it counts the request, yields the batch, and loops while
nextPageStart is truthy. -/
def fetchLoop (server : Option Nat → Response α) (fullResp : Bool) :
    Nat → Params → Option Nat → RateState → Option (FetchResult α)
  | 0, _, _, _ => none
  | fuel + 1, params, npsVar, rate =>
      let params1 := updParams params npsVar
      match server params1.start with
      | Response.httpError status =>
          if status = 404 then
            some { batches := [], outcome := Outcome.notFound, finalParams := params1,
                   rate := rate, requestedStarts := [params1.start] }
          else
            some { batches := [], outcome := Outcome.fatal status, finalParams := params1,
                   rate := rate, requestedStarts := [params1.start] }
      | Response.ok page =>
          let rate1 := { rate with requestCount := rate.requestCount + 1 }
          let batch := pageBatch fullResp page
          if truthy page.nextPageStart then
            match fetchLoop server fullResp fuel params1 page.nextPageStart rate1 with
            | none => none
            | some r =>
                some { r with
                       batches := batch :: r.batches,
                       requestedStarts := params1.start :: r.requestedStarts }
          else
            some { batches := [batch], outcome := Outcome.done, finalParams := params1,
                   rate := rate1, requestedStarts := [params1.start] }

/-- get_paginated_resource: run the rate gate once, set the limit key in the
params dict, then run the pagination loop starting with next_page_start = None. -/
def get_paginated_resource (server : Option Nat → Response α) (params : Params)
    (pageSize : Nat) (fullResp : Bool) (rate : RateState) (fuel : Nat) :
    Option (FetchResult α) :=
  let rate1 := rateGate rate
  let params1 := { params with limit := some pageSize }
  fetchLoop server fullResp fuel params1 none rate1

/-- A successful pagination chain: starting from cursor s the server returns
the given pages in order, every page but the last carrying a truthy
nextPageStart (which is the cursor of the following request), and the last
page carrying a falsy one. -/
def chainOk (server : Option Nat → Response α) : Option Nat → List (Page α) → Prop
  | _, [] => False
  | s, [p] => server s = Response.ok p ∧ truthy p.nextPageStart = false
  | s, p :: q :: rest =>
      server s = Response.ok p ∧ truthy p.nextPageStart = true ∧
        chainOk server p.nextPageStart (q :: rest)

/-- A pagination chain that ends in an HTTP error: the server returns the given
pages in order (each with a truthy nextPageStart) and then answers the next
request with the given error status. -/
def chainErr (server : Option Nat → Response α) :
    Option Nat → List (Page α) → Nat → Prop
  | s, [], status => server s = Response.httpError status
  | s, p :: rest, status =>
      server s = Response.ok p ∧ truthy p.nextPageStart = true ∧
        chainErr server p.nextPageStart rest status

/-- The start cursors requested along a successful chain (one request per
page; the last page's nextPageStart is never requested). -/
def startsOf : Option Nat → List (Page α) → List (Option Nat)
  | _, [] => []
  | s, [_] => [s]
  | s, p :: q :: rest => s :: startsOf p.nextPageStart (q :: rest)

/-- The value of the start key in the params dict after a successful chain
(the start of the last request made). -/
def lastStartOf : Option Nat → List (Page α) → Option Nat
  | s, [] => s
  | s, [_] => s
  | _, p :: q :: rest => lastStartOf p.nextPageStart (q :: rest)

/-- The start cursors requested along a chain that ends in an error (one
request per page, plus the final failing request). -/
def startsErrOf : Option Nat → List (Page α) → List (Option Nat)
  | s, [] => [s]
  | s, p :: rest => s :: startsErrOf p.nextPageStart rest

/-- A JSON value, as manipulated dynamically by the script.  Numbers are
modelled as integers (all numeric fields the script reads are integral). -/
inductive Json where
  | null
  | bool (b : Bool)
  | num (n : Int)
  | str (s : String)
  | arr (elems : List Json)
  | obj (fields : List (String × Json))

/-- First binding of a key in an association list (dict keys are unique). -/
def lookupField : List (String × Json) → String → Option Json
  | [], _ => none
  | (k, v) :: rest, key => if k = key then some v else lookupField rest key

/-- Required subscript access d[k]: KeyError when absent, TypeError on a
non-dict. -/
def Json.getReq : Json → String → Except String Json
  | Json.obj fs, k =>
      match lookupField fs k with
      | some v => Except.ok v
      | none => Except.error ("KeyError: " ++ k)
  | _, k => Except.error ("TypeError: subscript of non-dict: " ++ k)

/-- Optional access d.get(k, default): the default when the key is absent,
an error (AttributeError) when the receiver is not a dict. -/
def Json.getOpt : Json → String → Json → Except String Json
  | Json.obj fs, k, d => Except.ok ((lookupField fs k).getD d)
  | _, k, _ => Except.error ("AttributeError: get on non-dict: " ++ k)

/-- List index access l[i]: IndexError when out of range, TypeError on a
non-list. -/
def Json.getIdx : Json → Nat → Except String Json
  | Json.arr es, i =>
      match es.get? i with
      | some v => Except.ok v
      | none => Except.error "IndexError"
  | _, _ => Except.error "TypeError: index of non-list"

/-- Iterating a JSON value in a comprehension: only lists are iterable here. -/
def Json.elems : Json → Except String (List Json)
  | Json.arr es => Except.ok es
  | _ => Except.error "TypeError: not iterable"

/-- Python str() on the JSON values the script converts (only numbers and
strings occur; the container cases are coarse placeholders never reached by
the claims). -/
def pyStr : Json → String
  | Json.num n => toString n
  | Json.str s => s
  | Json.null => "None"
  | Json.bool true => "True"
  | Json.bool false => "False"
  | Json.arr _ => "<list>"
  | Json.obj _ => "<dict>"

/-- Two-digit zero padding, as produced by strftime. -/
def pad2 (n : Nat) : String :=
  if n < 10 then "0" ++ toString n else toString n

/-- Four-digit zero padding for the year field of strftime. -/
def pad4 (n : Nat) : String :=
  if n < 10 then "000" ++ toString n
  else if n < 100 then "00" ++ toString n
  else if n < 1000 then "0" ++ toString n
  else toString n

/-- Gregorian date from a count of days since 1970-01-01 (the standard civil
from days algorithm, restricted to nonnegative day counts). -/
def civilFromDays (z : Nat) : Nat × Nat × Nat :=
  let z1 := z + 719468
  let era := z1 / 146097
  let doe := z1 % 146097
  let yoe := (doe - doe / 1460 + doe / 36524 - doe / 146097) / 365
  let y := yoe + era * 400
  let doy := doe - (365 * yoe + yoe / 4 - yoe / 100)
  let mp := (5 * doy + 2) / 153
  let d := doy - (153 * mp + 2) / 5 + 1
  let m := if mp < 10 then mp + 3 else mp - 9
  (if m ≤ 2 then y + 1 else y, m, d)

/-- convert_to_datetime: epoch milliseconds to a UTC ISO-8601 string, as
datetime.utcfromtimestamp(ms / 1000.0).strftime of year-month-day T
hour:minute:second Z.  The model covers nonnegative epochs, which is what the
source system's timestamps are. -/
def convert_to_datetime (ms : Nat) : String :=
  let secs := ms / 1000
  let days := secs / 86400
  let rem := secs % 86400
  match civilFromDays days with
  | (y, m, d) =>
      pad4 y ++ "-" ++ pad2 m ++ "-" ++ pad2 d ++ "T" ++
        pad2 (rem / 3600) ++ ":" ++ pad2 (rem % 3600 / 60) ++ ":" ++
        pad2 (rem % 60) ++ "Z"

/-- convert_to_datetime applied to a JSON field: requires a (nonnegative)
number, as division by 1000.0 requires a numeric operand. -/
def jsonToDatetime : Json → Except String Json
  | Json.num (Int.ofNat m) => Except.ok (Json.str (convert_to_datetime m))
  | Json.num (Int.negSucc _) => Except.error "model: negative timestamp"
  | _ => Except.error "TypeError: unsupported operand for division"

/-- The body of the reviewers comprehension: user["user"]["displayName"]. -/
def extractUserDisplayName (u : Json) : Except String Json := do
  let uu ← u.getReq "user"
  uu.getReq "displayName"

/-- The body of the participants comprehension: user["user"]["emailAddress"]. -/
def extractUserEmail (u : Json) : Except String Json := do
  let uu ← u.getReq "user"
  uu.getReq "emailAddress"

/-- The entity dict built for one pull request in
process_pullrequest_entities, with every field access performed in the
source's evaluation order; a failed required access is the raised exception. -/
def map_pullrequest (pr : Json) : Except String Json := do
  let idv ← pr.getReq "id"
  let titlev ← pr.getReq "title"
  let createdv ← pr.getReq "createdDate"
  let created ← jsonToDatetime createdv
  let updatedv ← pr.getReq "updatedDate"
  let updated ← jsonToDatetime updatedv
  let fromRef ← pr.getReq "fromRef"
  let mergeCommit ← fromRef.getReq "latestCommit"
  let description ← pr.getOpt "description" Json.null
  let statev ← pr.getReq "state"
  let authorv ← pr.getReq "author"
  let authorUser ← authorv.getReq "user"
  let ownerName ← authorUser.getReq "displayName"
  let links ← pr.getReq "links"
  let selfLinks ← links.getReq "self"
  let firstLink ← selfLinks.getIdx 0
  let linkHref ← firstLink.getReq "href"
  let toRef ← pr.getReq "toRef"
  let destination ← toRef.getReq "displayId"
  let reviewersJson ← pr.getOpt "reviewers" (Json.arr [])
  let reviewerObjs ← reviewersJson.elems
  let reviewerNames ← reviewerObjs.mapM extractUserDisplayName
  let fromRef2 ← pr.getReq "fromRef"
  let sourcev ← fromRef2.getReq "displayId"
  let toRef2 ← pr.getReq "toRef"
  let repov ← toRef2.getReq "repository"
  let repoSlug ← repov.getReq "slug"
  let authorOpt ← pr.getOpt "author" Json.null
  let authorUser2 ← authorOpt.getReq "user"
  let authorEmail ← authorUser2.getReq "emailAddress"
  let participantsJson ← pr.getOpt "participants" (Json.arr [])
  let participantObjs ← participantsJson.elems
  let participantEmails ← participantObjs.mapM extractUserEmail
  pure (Json.obj
    [("identifier", Json.str (pyStr idv)),
     ("title", titlev),
     ("properties", Json.obj
       [("created_on", created),
        ("updated_on", updated),
        ("merge_commit", mergeCommit),
        ("description", description),
        ("state", statev),
        ("owner", ownerName),
        ("link", linkHref),
        ("destination", destination),
        ("reviewers", Json.arr reviewerNames),
        ("source", sourcev)]),
     ("relations", Json.obj
       [("repository", repoSlug),
        ("participants", Json.arr (authorEmail :: participantEmails))])])

/-- process_pullrequest_entities: map and upsert each record of the batch in
order.  There is no exception handling in the loop, so the first mapping
failure aborts the rest of the batch; the result is the list of entities
upserted before any failure, together with the escaped error if one occurred. -/
def process_pullrequest_entities : List Json → List Json × Option String
  | [] => ([], none)
  | pr :: rest =>
      match map_pullrequest pr with
      | Except.error e => ([], some e)
      | Except.ok ent =>
          match process_pullrequest_entities rest with
          | (es, err) => ((ent :: es), err)

/-- parse_repository_file_response: concatenate each line's text followed by a
newline (lines and text are read with defaulting get). -/
def parse_repository_file_response (p : Page α) : String :=
  (p.lines.getD []).foldl (fun acc l => acc ++ (l.text.getD "" ++ "\n")) ""

/-- The README concatenation over the yielded full-response batches; none
models the dynamic type error of treating a non-envelope yield as a dict
(unreachable in full-response mode). -/
def readmeOfBatches : List (Batch α) → Option String
  | [] => some ""
  | Batch.full p :: rest =>
      (readmeOfBatches rest).map (fun s => parse_repository_file_response p ++ s)
  | Batch.values _ :: _ => none

/-- get_repository_readme: paginate the README file content with page size 500
in full-response mode and concatenate the parsed pages; a fatal HTTP error
propagates (no string is returned). -/
def get_repository_readme (server : Option Nat → Response Unit)
    (rate : RateState) (fuel : Nat) : Option String :=
  match get_paginated_resource server emptyParams 500 true rate fuel with
  | none => none
  | some r =>
      match r.outcome with
      | Outcome.fatal _ => none
      | _ => readmeOfBatches r.batches

/-- A project webhook as read by the dedup check: the url key is required,
an identifying payload stands for the rest of the object. -/
structure SrcWebhook where
  url : String
  wid : Nat
deriving DecidableEq

/-- Flattening of the yielded batches, as the double comprehension iterates
them. -/
def flattenBatches : List (Batch α) → List α
  | [] => []
  | Batch.values vs :: rest => vs ++ flattenBatches rest
  | Batch.full p :: rest => p.values ++ flattenBatches rest

/-- get_or_create_project_webhook: with no sink webhook URL, skip.  Otherwise
list the project's webhooks by pagination; an HTTP error escaping the
pagination is caught and yields none.  If some listed webhook's url equals the
sink URL, return the first such webhook and issue no creation call; otherwise
issue exactly one creation call (whose own HTTP outcome is createResult).
The second component counts the creation calls issued. -/
def get_or_create_project_webhook (webhookUrl : Option String)
    (server : Option Nat → Response SrcWebhook) (createResult : Option SrcWebhook)
    (rate : RateState) (fuel : Nat) : Option (Option SrcWebhook × Nat) :=
  match webhookUrl with
  | none => some (none, 0)
  | some u =>
      match get_paginated_resource server emptyParams 25 false rate fuel with
      | none => none
      | some r =>
          match r.outcome with
          | Outcome.fatal _ => some (none, 0)
          | _ =>
              match (flattenBatches r.batches).filter (fun w => w.url == u) with
              | [] => some (createResult, 1)
              | w :: _ => some (some w, 0)

/-- A repository, reduced to the fields the pull-request traversal reads. -/
structure Repo where
  projectKey : String
  slug : String
deriving DecidableEq

/-- The pr_params dict as created once at the top of
get_repository_pull_requests. -/
def prParamsInit : Params :=
  { state := some "ALL", limit := none, start := none }

/-- The per-repository loop of get_repository_pull_requests: each repository's
pull requests are paginated with the shared pr_params dict.  Because the
Python fetcher assigns params = params or a fresh dict and then mutates the
dict in place, a non-empty dict passed in is the same object across
iterations: the state it holds after one repository's pagination is what the
next repository's pagination starts from. -/
def prFetchGo (server : Repo → Option Nat → Response Json) (fuel : Nat) :
    List Repo → Params → RateState →
      Option (List (FetchResult Json) × Params × RateState)
  | [], params, rate => some ([], params, rate)
  | repo :: rest, params, rate =>
      match get_paginated_resource (server repo) params 25 false rate fuel with
      | none => none
      | some r =>
          let nextParams := if params.isEmptyDict then params else r.finalParams
          match prFetchGo server fuel rest nextParams r.rate with
          | none => none
          | some (rs, p, rt) => some (((r :: rs)), p, rt)

/-- get_repository_pull_requests: create pr_params once, then fetch each
repository's pull requests with it (the per-batch entity mapping is modelled
separately by process_pullrequest_entities). -/
def get_repository_pull_requests (server : Repo → Option Nat → Response Json)
    (repos : List Repo) (rate : RateState) (fuel : Nat) :
    Option (List (FetchResult Json) × Params × RateState) :=
  prFetchGo server fuel repos prParamsInit rate

/-- The value of the start key in the params dict after a chain ending in an
error (the start of the failing request). -/
def lastStartErr : Option Nat → List (Page α) → Option Nat
  | s, [] => s
  | _, p :: rest => lastStartErr p.nextPageStart rest

/-- Concatenation of a list of strings, in order. -/
def concatStrings : List String → String
  | [] => ""
  | s :: rest => s ++ concatStrings rest

/-- Whether a mapping attempt succeeded. -/
def isOkE : Except String Json → Bool
  | Except.ok _ => true
  | Except.error _ => false

/-- The successfully mapped entity, if any. -/
def toOptE : Except String Json → Option Json
  | Except.ok a => some a
  | Except.error _ => none

/-- A participant object as it appears in the source array. -/
def mkParticipant (email : Json) : Json :=
  Json.obj [("user", Json.obj [("emailAddress", email)])]

/-- A fully populated pull-request source object. -/
def prFull : Json := Json.obj
  [("id", Json.num 101),
   ("title", Json.str "Add feature"),
   ("createdDate", Json.num 1700000000000),
   ("updatedDate", Json.num 1700000000000),
   ("fromRef", Json.obj [("latestCommit", Json.str "abc123"), ("displayId", Json.str "feature")]),
   ("description", Json.str "desc"),
   ("state", Json.str "OPEN"),
   ("author", Json.obj [("user", Json.obj
     [("displayName", Json.str "Alice"), ("emailAddress", Json.str "alice@x.io")])]),
   ("links", Json.obj [("self", Json.arr [Json.obj [("href", Json.str "http://pr/101")]])]),
   ("toRef", Json.obj [("displayId", Json.str "main"),
     ("repository", Json.obj [("slug", Json.str "repo1")])]),
   ("reviewers", Json.arr [Json.obj [("user", Json.obj [("displayName", Json.str "Bob")])]]),
   ("participants", Json.arr
     [Json.obj [("user", Json.obj [("emailAddress", Json.str "bob@x.io")])],
      Json.obj [("user", Json.obj [("emailAddress", Json.str "alice@x.io")])]])]

/-- A pull-request source object missing the required id field. -/
def prNoId : Json := Json.obj [("title", Json.str "no id")]

/-- A pull-request source object with every required field present and none of
the optional fields (description, reviewers, participants). -/
def mkPRNoOptional (idn : Int) (title : String) (created updated : Nat)
    (mergeCommit statev ownerName href destination sourcev slug authorEmail : String) :
    Json :=
  Json.obj
    [("id", Json.num idn),
     ("title", Json.str title),
     ("createdDate", Json.num (Int.ofNat created)),
     ("updatedDate", Json.num (Int.ofNat updated)),
     ("fromRef", Json.obj [("latestCommit", Json.str mergeCommit),
       ("displayId", Json.str sourcev)]),
     ("state", Json.str statev),
     ("author", Json.obj [("user", Json.obj
       [("displayName", Json.str ownerName), ("emailAddress", Json.str authorEmail)])]),
     ("links", Json.obj [("self", Json.arr [Json.obj [("href", Json.str href)]])]),
     ("toRef", Json.obj [("displayId", Json.str destination),
       ("repository", Json.obj [("slug", Json.str slug)])])]

/-- The entity the script builds for such a record: description null, empty
reviewers, participants reduced to the author's email. -/
def entityNoOptional (idn : Int) (title : String) (created updated : Nat)
    (mergeCommit statev ownerName href destination sourcev slug authorEmail : String) :
    Json :=
  Json.obj
    [("identifier", Json.str (pyStr (Json.num idn))),
     ("title", Json.str title),
     ("properties", Json.obj
       [("created_on", Json.str (convert_to_datetime created)),
        ("updated_on", Json.str (convert_to_datetime updated)),
        ("merge_commit", Json.str mergeCommit),
        ("description", Json.null),
        ("state", Json.str statev),
        ("owner", Json.str ownerName),
        ("link", Json.str href),
        ("destination", Json.str destination),
        ("reviewers", Json.arr []),
        ("source", Json.str sourcev)]),
     ("relations", Json.obj
       [("repository", Json.str slug),
        ("participants", Json.arr [Json.str authorEmail])])]

/-- A pull-request source object with an arbitrary author email and an
arbitrary participants array (all other fields fixed). -/
def mkPRParticipants (authorEmail : Json) (pemails : List Json) : Json :=
  Json.obj
    [("id", Json.num 7),
     ("title", Json.str "t"),
     ("createdDate", Json.num 0),
     ("updatedDate", Json.num 0),
     ("fromRef", Json.obj [("latestCommit", Json.str "c"), ("displayId", Json.str "src")]),
     ("state", Json.str "OPEN"),
     ("author", Json.obj [("user", Json.obj
       [("displayName", Json.str "A"), ("emailAddress", authorEmail)])]),
     ("links", Json.obj [("self", Json.arr [Json.obj [("href", Json.str "h")]])]),
     ("toRef", Json.obj [("displayId", Json.str "main"),
       ("repository", Json.obj [("slug", Json.str "r")])]),
     ("participants", Json.arr (pemails.map mkParticipant))]

/-- The participants relation of a built entity. -/
def entityParticipants : Json → Option Json
  | Json.obj fs =>
      match lookupField fs "relations" with
      | some (Json.obj rs) => lookupField rs "participants"
      | _ => none
  | _ => none

/-- The participants relation produced by mapping a pull request. -/
def mappedParticipants (pr : Json) : Option Json :=
  match map_pullrequest pr with
  | Except.ok ent => entityParticipants ent
  | Except.error _ => none

/-- The page served at cursor c by the over-limit server: 1001 pages chained
none, 1, 2, ..., 1000. -/
def olPage (c : Nat) : Page Nat :=
  if c < 1000 then { values := [], lines := none, nextPageStart := some (c + 1) }
  else { values := [], lines := none, nextPageStart := none }

/-- A server whose resource spans 1001 pages. -/
def overLimitServer : Option Nat → Response Nat
  | none => Response.ok (olPage 0)
  | some c => Response.ok (olPage c)

/-- The over-limit server's chain: n pages starting at cursor c. -/
def olChainFrom : Nat → Nat → List (Page Nat)
  | 0, _ => []
  | n + 1, c => olPage c :: olChainFrom n (c + 1)

/-- A rate state that has exhausted its window: 1000 requests counted, 100
seconds into the window. -/
def busyRateState : RateState :=
  { requestCount := 1000, rateLimitStart := 0, now := 100, slept := 0 }

/-- A single page with no continuation. -/
def onePage : Page Nat := { values := [], lines := none, nextPageStart := none }

/-- A server always answering with the single page. -/
def onePageServer : Option Nat → Response Nat
  | _ => Response.ok onePage

/-- First page of the two-page witness resource. -/
def w2pg1 : Page Nat := { values := [1, 2], lines := none, nextPageStart := some 7 }

/-- Second page of the two-page witness resource. -/
def w2pg2 : Page Nat := { values := [3], lines := none, nextPageStart := none }

/-- A two-page resource: cursor none then cursor 7. -/
def w2srv : Option Nat → Response Nat
  | none => Response.ok w2pg1
  | some 7 => Response.ok w2pg2
  | some _ => Response.httpError 500

/-- A resource that is absent from the first request on. -/
def srv404 : Option Nat → Response Nat
  | _ => Response.httpError 404

/-- The one successful page before the mid-sequence 404. -/
def m404pg : Page Nat := { values := [5], lines := none, nextPageStart := some 3 }

/-- A resource whose first page succeeds and whose second request 404s. -/
def m404srv : Option Nat → Response Nat
  | none => Response.ok m404pg
  | some _ => Response.httpError 404

/-- The first repository of the aliasing scenario. -/
def prRepoA : Repo := { projectKey := "PRJ", slug := "repo-a" }

/-- The second repository of the aliasing scenario. -/
def prRepoB : Repo := { projectKey := "PRJ", slug := "repo-b" }

/-- Pull-request pages: repo-a has two pages (cursor 25 after the first),
repo-b answers any request with a single final page. -/
def prAliasingServer : Repo → Option Nat → Response Json
  | r, s =>
      if r.slug = "repo-a" then
        match s with
        | none => Response.ok { values := [Json.str "a1"], lines := none,
                                nextPageStart := some 25 }
        | some _ => Response.ok { values := [Json.str "a2"], lines := none,
                                  nextPageStart := none }
      else
        Response.ok { values := [Json.str "b1"], lines := none, nextPageStart := none }

/-- The matching project webhook of the dedup witness. -/
def whA : SrcWebhook := { url := "http://hook", wid := 1 }

/-- A non-matching project webhook. -/
def whB : SrcWebhook := { url := "http://other", wid := 2 }

/-- The single page listing the project's webhooks. -/
def whPage : Page SrcWebhook := { values := [whB, whA], lines := none, nextPageStart := none }

/-- A server listing the project's webhooks in one page. -/
def whSrv : Option Nat → Response SrcWebhook
  | _ => Response.ok whPage

/-- One README line carrying the text a. -/
def readmeLine : FileLine := { text := some "a" }

/-- The single README content page. -/
def readmePg : Page Unit := { values := [], lines := some [readmeLine], nextPageStart := none }

/-- A server answering the README file-content request with one page. -/
def readmeSrv : Option Nat → Response Unit
  | _ => Response.ok readmePg

/-- First page of the two-page README witness. -/
def rdPg1 : Page Unit :=
  { values := [],
    lines := some [{ text := some "hello" }, { text := none }],
    nextPageStart := some 2 }

/-- Second page of the two-page README witness. -/
def rdPg2 : Page Unit :=
  { values := [], lines := some [{ text := some "world" }], nextPageStart := none }

/-- A server paginating the README over two pages. -/
def rdSrv : Option Nat → Response Unit
  | none => Response.ok rdPg1
  | some _ => Response.ok rdPg2

/-- The start key of the params dict after the loop-top update is the
effective start cursor. -/
theorem updParams_start (params : Params) (npsVar : Option Nat) :
    (updParams params npsVar).start = effStart params npsVar := by
  cases ht : truthy npsVar <;> simp [updParams, effStart, ht]

/-- The loop-top update only (possibly) rewrites the start key. -/
theorem updParams_eq (params : Params) (npsVar : Option Nat) :
    updParams params npsVar = { params with start := effStart params npsVar } := by
  cases ht : truthy npsVar <;> simp [updParams, effStart, ht]

/-- Unfolding of one successful loop iteration. -/
theorem fetchLoop_succ_ok (server : Option Nat → Response α) (fullResp : Bool)
    (fuel : Nat) (params : Params) (npsVar : Option Nat) (rate : RateState)
    (p : Page α) (hsrv : server (effStart params npsVar) = Response.ok p) :
    fetchLoop server fullResp (fuel + 1) params npsVar rate =
      (if truthy p.nextPageStart then
        match fetchLoop server fullResp fuel (updParams params npsVar) p.nextPageStart
            { rate with requestCount := rate.requestCount + 1 } with
        | none => none
        | some r =>
            some { r with
                   batches := (pageBatch fullResp p :: r.batches),
                   requestedStarts := (effStart params npsVar :: r.requestedStarts) }
      else
        some { batches := [pageBatch fullResp p], outcome := Outcome.done,
               finalParams := updParams params npsVar,
               rate := { rate with requestCount := rate.requestCount + 1 },
               requestedStarts := [effStart params npsVar] }) := by
  simp only [fetchLoop, updParams_start, hsrv]

/-- Unfolding of a failing loop iteration. -/
theorem fetchLoop_succ_err (server : Option Nat → Response α) (fullResp : Bool)
    (fuel : Nat) (params : Params) (npsVar : Option Nat) (rate : RateState)
    (status : Nat) (hsrv : server (effStart params npsVar) = Response.httpError status) :
    fetchLoop server fullResp (fuel + 1) params npsVar rate =
      some { batches := [],
             outcome := if status = 404 then Outcome.notFound else Outcome.fatal status,
             finalParams := updParams params npsVar,
             rate := rate,
             requestedStarts := [effStart params npsVar] } := by
  simp only [fetchLoop, updParams_start, hsrv]
  by_cases h4 : status = 404 <;> simp [h4]

/-- A successful chain runs the loop to completion: the batches are the pages'
batches in order, the request count grows by one per page, and the requests
are the chain's cursors. -/
theorem fetchLoop_chain (server : Option Nat → Response α) (fullResp : Bool)
    (ps : List (Page α)) :
    ∀ (fuel : Nat) (params : Params) (npsVar : Option Nat) (rate : RateState),
      chainOk server (effStart params npsVar) ps → ps.length ≤ fuel →
      fetchLoop server fullResp fuel params npsVar rate =
        some { batches := ps.map (pageBatch fullResp),
               outcome := Outcome.done,
               finalParams := { params with start := lastStartOf (effStart params npsVar) ps },
               rate := { rate with requestCount := rate.requestCount + ps.length },
               requestedStarts := startsOf (effStart params npsVar) ps } := by
  induction ps with
  | nil =>
      intro fuel params npsVar rate h _
      exact absurd h (by simp [chainOk])
  | cons p rest ih =>
      intro fuel params npsVar rate h hf
      cases fuel with
      | zero => simp at hf
      | succ fuel =>
          cases rest with
          | nil =>
              obtain ⟨hsrv, hnt⟩ := h
              rw [fetchLoop_succ_ok server fullResp fuel params npsVar rate p hsrv, hnt]
              simp [startsOf, lastStartOf, updParams_eq]
          | cons q rest2 =>
              obtain ⟨hsrv, hnt, hrest⟩ := h
              rw [fetchLoop_succ_ok server fullResp fuel params npsVar rate p hsrv, hnt]
              have heff : effStart (updParams params npsVar) p.nextPageStart = p.nextPageStart := by
                simp [effStart, hnt]
              have hlen : (q :: rest2).length ≤ fuel := by
                simp at hf ⊢; omega
              rw [ih fuel (updParams params npsVar) p.nextPageStart
                    { rate with requestCount := rate.requestCount + 1 }
                    (by rw [heff]; exact hrest) hlen]
              simp only [updParams_eq, startsOf, lastStartOf, List.map, List.length_cons,
                if_true]
              have harith : rate.requestCount + 1 + (rest2.length + 1) =
                  rate.requestCount + (rest2.length + 1 + 1) := by omega
              simp [harith, effStart, hnt]

/-- A chain ending in an HTTP error yields the successful pages' batches and
then terminates with notFound for status 404, or with the propagated error
for any other status. -/
theorem fetchLoop_chainErr (server : Option Nat → Response α) (fullResp : Bool)
    (ps : List (Page α)) (status : Nat) :
    ∀ (fuel : Nat) (params : Params) (npsVar : Option Nat) (rate : RateState),
      chainErr server (effStart params npsVar) ps status → ps.length + 1 ≤ fuel →
      fetchLoop server fullResp fuel params npsVar rate =
        some { batches := ps.map (pageBatch fullResp),
               outcome := if status = 404 then Outcome.notFound else Outcome.fatal status,
               finalParams := { params with start := lastStartErr (effStart params npsVar) ps },
               rate := { rate with requestCount := rate.requestCount + ps.length },
               requestedStarts := startsErrOf (effStart params npsVar) ps } := by
  induction ps with
  | nil =>
      intro fuel params npsVar rate h hf
      cases fuel with
      | zero => simp at hf
      | succ fuel =>
          rw [fetchLoop_succ_err server fullResp fuel params npsVar rate status h]
          simp [startsErrOf, lastStartErr, updParams_eq]
  | cons p rest ih =>
      intro fuel params npsVar rate h hf
      cases fuel with
      | zero => simp at hf
      | succ fuel =>
          obtain ⟨hsrv, hnt, hrest⟩ := h
          rw [fetchLoop_succ_ok server fullResp fuel params npsVar rate p hsrv, hnt]
          have heff : effStart (updParams params npsVar) p.nextPageStart = p.nextPageStart := by
            simp [effStart, hnt]
          have hlen : rest.length + 1 ≤ fuel := by
            simp at hf ⊢; omega
          rw [ih fuel (updParams params npsVar) p.nextPageStart
                { rate with requestCount := rate.requestCount + 1 }
                (by rw [heff]; exact hrest) hlen]
          simp only [updParams_eq, startsErrOf, lastStartErr, List.map, List.length_cons,
            if_true]
          have harith : rate.requestCount + 1 + rest.length =
              rate.requestCount + (rest.length + 1) := by omega
          simp [harith, effStart, hnt]

/-- get_paginated_resource on a successful chain (the chain starts from
whatever value the caller's dict holds under the start key). -/
theorem get_paginated_resource_chain (server : Option Nat → Response α)
    (params : Params) (pageSize : Nat) (fullResp : Bool) (rate : RateState)
    (fuel : Nat) (ps : List (Page α))
    (h : chainOk server params.start ps) (hf : ps.length ≤ fuel) :
    get_paginated_resource server params pageSize fullResp rate fuel =
      some { batches := ps.map (pageBatch fullResp),
             outcome := Outcome.done,
             finalParams := { params with limit := some pageSize,
                                          start := lastStartOf params.start ps },
             rate := { rateGate rate with
                       requestCount := (rateGate rate).requestCount + ps.length },
             requestedStarts := startsOf params.start ps } := by
  unfold get_paginated_resource
  have heff : effStart { params with limit := some pageSize } none = params.start := by
    simp [effStart, truthy]
  rw [fetchLoop_chain server fullResp ps fuel { params with limit := some pageSize }
        none (rateGate rate) (by rw [heff]; exact h) hf]
  simp [heff]

/-- get_paginated_resource on a chain ending in an HTTP error. -/
theorem get_paginated_resource_chainErr (server : Option Nat → Response α)
    (params : Params) (pageSize : Nat) (fullResp : Bool) (rate : RateState)
    (fuel : Nat) (ps : List (Page α)) (status : Nat)
    (h : chainErr server params.start ps status) (hf : ps.length + 1 ≤ fuel) :
    get_paginated_resource server params pageSize fullResp rate fuel =
      some { batches := ps.map (pageBatch fullResp),
             outcome := if status = 404 then Outcome.notFound else Outcome.fatal status,
             finalParams := { params with limit := some pageSize,
                                          start := lastStartErr params.start ps },
             rate := { rateGate rate with
                       requestCount := (rateGate rate).requestCount + ps.length },
             requestedStarts := startsErrOf params.start ps } := by
  unfold get_paginated_resource
  have heff : effStart { params with limit := some pageSize } none = params.start := by
    simp [effStart, truthy]
  rw [fetchLoop_chainErr server fullResp ps status fuel { params with limit := some pageSize }
        none (rateGate rate) (by rw [heff]; exact h) hf]
  simp [heff]

/-- The server function determines the chain from a given start cursor. -/
theorem chainOk_det (server : Option Nat → Response α) :
    ∀ (ps qs : List (Page α)) (s : Option Nat),
      chainOk server s ps → chainOk server s qs → ps = qs := by
  intro ps
  induction ps with
  | nil =>
      intro qs s h
      exact absurd h (by simp [chainOk])
  | cons p rest ih =>
      intro qs s hp hq
      cases qs with
      | nil => exact absurd hq (by simp [chainOk])
      | cons q qrest =>
          cases rest with
          | nil =>
              cases qrest with
              | nil =>
                  obtain ⟨h1, _⟩ := hp
                  obtain ⟨h2, _⟩ := hq
                  have : p = q := by
                    have := h1.symm.trans h2
                    exact Response.ok.inj this
                  rw [this]
              | cons q2 qrest2 =>
                  obtain ⟨h1, hf1⟩ := hp
                  obtain ⟨h2, ht2, _⟩ := hq
                  have hpq : p = q := Response.ok.inj (h1.symm.trans h2)
                  rw [hpq] at hf1
                  rw [hf1] at ht2
                  simp at ht2
          | cons r2 rest2 =>
              cases qrest with
              | nil =>
                  obtain ⟨h1, ht1, _⟩ := hp
                  obtain ⟨h2, hf2⟩ := hq
                  have hpq : p = q := Response.ok.inj (h1.symm.trans h2)
                  rw [hpq] at ht1
                  rw [hf2] at ht1
                  simp at ht1
              | cons q2 qrest2 =>
                  obtain ⟨h1, _, hrest1⟩ := hp
                  obtain ⟨h2, _, hrest2⟩ := hq
                  have hpq : p = q := Response.ok.inj (h1.symm.trans h2)
                  subst hpq
                  have := ih (q2 :: qrest2) p.nextPageStart hrest1 hrest2
                  rw [this]

/-- Every cursor requested along a chain starts its own chain, of length at
most the original chain's. -/
theorem chainOk_mem_startsOf (server : Option Nat → Response α) :
    ∀ (ps : List (Page α)) (s x : Option Nat),
      chainOk server s ps → x ∈ startsOf s ps →
      ∃ qs : List (Page α), chainOk server x qs ∧ qs.length ≤ ps.length := by
  intro ps
  induction ps with
  | nil =>
      intro s x h
      exact absurd h (by simp [chainOk])
  | cons p rest ih =>
      intro s x h hmem
      cases rest with
      | nil =>
          simp [startsOf] at hmem
          subst hmem
          exact ⟨[p], h, le_refl _⟩
      | cons q rest2 =>
          simp only [startsOf, List.mem_cons] at hmem
          cases hmem with
          | inl hx =>
              subst hx
              exact ⟨p :: q :: rest2, h, le_refl _⟩
          | inr hx =>
              obtain ⟨qs, hqs, hle⟩ := ih p.nextPageStart x h.2.2 hx
              exact ⟨qs, hqs, le_trans hle (by simp)⟩

/-- Along a successful chain no start cursor is ever requested twice. -/
theorem startsOf_nodup (server : Option Nat → Response α) :
    ∀ (ps : List (Page α)) (s : Option Nat),
      chainOk server s ps → (startsOf s ps).Nodup := by
  intro ps
  induction ps with
  | nil =>
      intro s h
      exact absurd h (by simp [chainOk])
  | cons p rest ih =>
      intro s h
      cases rest with
      | nil => simp [startsOf]
      | cons q rest2 =>
          rw [startsOf, List.nodup_cons]
          constructor
          · intro hmem
            obtain ⟨qs, hqs, hle⟩ := chainOk_mem_startsOf server (q :: rest2)
              p.nextPageStart s h.2.2 hmem
            have heq := chainOk_det server (p :: q :: rest2) qs s h hqs
            rw [← heq] at hle
            simp at hle
          · exact ih p.nextPageStart h.2.2

/-- The parse loop over the lines, started from any accumulator. -/
theorem foldl_lines_eq (lines : List FileLine) :
    ∀ acc : String,
      lines.foldl (fun a l => a ++ (l.text.getD "" ++ "\n")) acc =
        acc ++ concatStrings (lines.map (fun l => l.text.getD "" ++ "\n")) := by
  induction lines with
  | nil => intro acc; simp [concatStrings]
  | cons l rest ih =>
      intro acc
      simp only [List.foldl_cons, List.map_cons, concatStrings, ih]
      rw [String.append_assoc]

/-- parse_repository_file_response concatenates, over the lines, each line's
text followed by a newline. -/
theorem parse_repository_file_response_eq (p : Page α) :
    parse_repository_file_response p =
      concatStrings ((p.lines.getD []).map (fun l => l.text.getD "" ++ "\n")) := by
  unfold parse_repository_file_response
  rw [foldl_lines_eq]
  simp

/-- Full-response batches reassemble to the concatenation of the parsed pages. -/
theorem readmeOfBatches_full (ps : List (Page α)) :
    readmeOfBatches (ps.map (pageBatch true)) =
      some (concatStrings (ps.map parse_repository_file_response)) := by
  induction ps with
  | nil => rfl
  | cons p rest ih =>
      simp only [List.map_cons, pageBatch, if_true, readmeOfBatches, ih, concatStrings]
      rfl

/-- Values-mode batches flatten to the concatenation of the pages' values. -/
theorem flattenBatches_values (ps : List (Page α)) :
    flattenBatches (ps.map (pageBatch false)) = (ps.map Page.values).flatten := by
  induction ps with
  | nil => rfl
  | cons p rest ih =>
      simp [flattenBatches, pageBatch, ih]

/-- Extracting the email of each built participant succeeds and returns the
emails in source order. -/
theorem mapM_extractUserEmail (l : List Json) :
    List.mapM extractUserEmail (l.map mkParticipant) = Except.ok l := by
  induction l with
  | nil => rfl
  | cons e rest ih =>
      rw [List.map_cons, List.mapM_cons, ih]
      rfl

/-- Bind on a success in the Except monad. -/
theorem exceptBind_ok {α β ε : Type} (a : α) (f : α → Except ε β) :
    (Except.ok a >>= f) = f a := rfl

/-- Functorial map on a success in the Except monad. -/
theorem exceptMap_ok {α β ε : Type} (a : α) (f : α → β) :
    (f <$> (Except.ok a : Except ε α)) = Except.ok (f a) := rfl

/-- Extracting the emails of the built participants, in accumulator form. -/
theorem mapM_loop_extractUserEmail (l : List Json) :
    ∀ acc : List Json,
      List.mapM.loop extractUserEmail (l.map mkParticipant) acc =
        Except.ok (acc.reverse ++ l) := by
  induction l with
  | nil =>
      intro acc
      simp [List.mapM.loop]
      rfl
  | cons e rest ih =>
      intro acc
      rw [List.map_cons, List.mapM.loop]
      have h1 : extractUserEmail (mkParticipant e) = Except.ok e := rfl
      rw [h1, exceptBind_ok, ih (e :: acc)]
      simp

/-- A failing record stops the batch: everything before it is mapped and
upserted, the failure escapes, and nothing after it is processed. -/
theorem process_pullrequest_entities_abort (bad : Json) (rest : List Json) (e : String)
    (hbad : map_pullrequest bad = Except.error e) :
    ∀ pre : List Json, (∀ p ∈ pre, isOkE (map_pullrequest p) = true) →
      process_pullrequest_entities (pre ++ bad :: rest) =
        (pre.filterMap (fun p => toOptE (map_pullrequest p)), some e) := by
  intro pre
  induction pre with
  | nil =>
      intro _
      simp [process_pullrequest_entities, hbad]
  | cons p pre2 ih =>
      intro hpre
      have hp : isOkE (map_pullrequest p) = true := hpre p (by simp)
      cases hmp : map_pullrequest p with
      | error e2 => rw [hmp] at hp; simp [isOkE] at hp
      | ok ent =>
          have hrest : ∀ q ∈ pre2, isOkE (map_pullrequest q) = true := by
            intro q hq
            exact hpre q (by simp [hq])
          rw [List.cons_append]
          rw [List.filterMap_cons]
          simp only [process_pullrequest_entities, hmp, ih hrest, toOptE]

theorem olChainFrom_length : ∀ n c, (olChainFrom n c).length = n := by
  intro n
  induction n with
  | zero => intro c; rfl
  | succ n ih => intro c; simp [olChainFrom, ih]

theorem olChain_chainOk : ∀ n c, c + n = 1000 →
    chainOk overLimitServer (some c) (olChainFrom (n + 1) c) := by
  intro n
  induction n with
  | zero =>
      intro c hc
      have hceq : c = 1000 := by omega
      subst hceq
      exact ⟨rfl, rfl⟩
  | succ n ih =>
      intro c hc
      have hlt : c < 1000 := by omega
      have hnext : (olPage c).nextPageStart = some (c + 1) := by simp [olPage, hlt]
      refine ⟨rfl, ?_, ?_⟩
      · simp [olPage, hlt, truthy]
      · rw [hnext]
        exact ih (c + 1) (by omega)

theorem olChain_full : chainOk overLimitServer none (olPage 0 :: olChainFrom 1000 1) := by
  have h0 : (olPage 0).nextPageStart = some 1 := by simp [olPage]
  refine ⟨rfl, ?_, ?_⟩
  · simp [olPage, truthy]
  · rw [h0]
    exact olChain_chainOk 999 1 (by omega)

/-- C1 counterexample: a single paginated fetch over a 1001-page resource,
started from the freshly initialized rate state, drives the window's request
count to 1001 > RATE_LIMIT = 1000 while sleeping for a total of 0 seconds: the
count exceeds the configured limit without any blocking wait, because the gate
is only consulted once per fetch call, not before every page request. -/
theorem rate_window_exceeds_limit_without_wait_cex :
    (get_paginated_resource overLimitServer emptyParams 25 false initialRateState 1001).map
        (fun r => (r.rate.requestCount, r.rate.slept)) = some (1001, 0) ∧
      RATE_LIMIT < 1001 := by
  constructor
  · rw [get_paginated_resource_chain overLimitServer emptyParams 25 false initialRateState
        1001 (olPage 0 :: olChainFrom 1000 1) olChain_full
        (by simp [olChainFrom_length])]
    simp [olChainFrom_length, rateGate, initialRateState, RATE_LIMIT]
  · decide

/-- C1 (amended): the rate-limit gate is consulted exactly once per
paginated-fetch invocation, before its first page request; if at entry the
count has reached RATE_LIMIT and less than RATE_PERIOD has elapsed since the
window started, the call blocks for the remainder of the period and resets the
count to zero (merely resetting when the period has already elapsed), and
otherwise passes immediately; each fetched page then increments the count by
one with no further gate checks, so within a multi-page fetch the count can
grow past RATE_LIMIT without a wait. -/
theorem rate_gate_once_per_fetch_call
    (server : Option Nat → Response α) (params : Params) (pageSize : Nat)
    (fullResp : Bool) (rate : RateState) (fuel : Nat) (ps : List (Page α))
    (h : chainOk server params.start ps) (hf : ps.length ≤ fuel) :
    (get_paginated_resource server params pageSize fullResp rate fuel).map
        (fun r => r.rate) =
      some { rateGate rate with
             requestCount := (rateGate rate).requestCount + ps.length } ∧
    (RATE_LIMIT ≤ rate.requestCount →
      rate.now - rate.rateLimitStart < RATE_PERIOD →
      rateGate rate =
        { requestCount := 0,
          rateLimitStart := rate.now + (RATE_PERIOD - (rate.now - rate.rateLimitStart)),
          now := rate.now + (RATE_PERIOD - (rate.now - rate.rateLimitStart)),
          slept := rate.slept + (RATE_PERIOD - (rate.now - rate.rateLimitStart)) }) ∧
    (rate.requestCount < RATE_LIMIT → rateGate rate = rate) := by
  refine ⟨?_, ?_, ?_⟩
  · rw [get_paginated_resource_chain server params pageSize fullResp rate fuel ps h hf]
    rfl
  · intro h1 h2
    simp [rateGate, h1, h2]
  · intro h3
    simp [rateGate, Nat.not_le.mpr h3]

/-- Witness for the amended C1 theorem at a concrete exhausted state. -/
theorem rate_gate_once_per_fetch_call_witness :
    (get_paginated_resource onePageServer emptyParams 25 false busyRateState 1).map
        (fun r => r.rate) =
      some { rateGate busyRateState with
             requestCount := (rateGate busyRateState).requestCount + [onePage].length } ∧
    (RATE_LIMIT ≤ busyRateState.requestCount →
      busyRateState.now - busyRateState.rateLimitStart < RATE_PERIOD →
      rateGate busyRateState =
        { requestCount := 0,
          rateLimitStart := busyRateState.now +
            (RATE_PERIOD - (busyRateState.now - busyRateState.rateLimitStart)),
          now := busyRateState.now +
            (RATE_PERIOD - (busyRateState.now - busyRateState.rateLimitStart)),
          slept := busyRateState.slept +
            (RATE_PERIOD - (busyRateState.now - busyRateState.rateLimitStart)) }) ∧
    (busyRateState.requestCount < RATE_LIMIT → rateGate busyRateState = busyRateState) :=
  rate_gate_once_per_fetch_call onePageServer emptyParams 25 false busyRateState 1
    [onePage] ⟨rfl, rfl⟩ (by decide)

/-- C2: over any finite successful page chain ending in a page without a
truthy nextPageStart, the fetcher yields exactly the pages' values batches (or
full envelopes in full-response mode) in cursor order, terminates normally,
and the start cursors it requests are exactly the chain's cursors, each
requested exactly once. -/
theorem pagination_yields_batches_in_order_and_terminates
    (server : Option Nat → Response α) (params : Params) (pageSize : Nat)
    (fullResp : Bool) (rate : RateState) (fuel : Nat) (ps : List (Page α))
    (h : chainOk server params.start ps) (hf : ps.length ≤ fuel) :
    (get_paginated_resource server params pageSize fullResp rate fuel).map
        (fun r => (r.batches, r.outcome, r.requestedStarts)) =
      some (ps.map (pageBatch fullResp), Outcome.done, startsOf params.start ps) ∧
    (startsOf params.start ps).Nodup := by
  constructor
  · rw [get_paginated_resource_chain server params pageSize fullResp rate fuel ps h hf]
    rfl
  · exact startsOf_nodup server ps params.start h

/-- Witness for C2 on the concrete two-page resource. -/
theorem pagination_yields_batches_witness :
    (get_paginated_resource w2srv emptyParams 25 false initialRateState 2).map
        (fun r => (r.batches, r.outcome, r.requestedStarts)) =
      some ([w2pg1, w2pg2].map (pageBatch false), Outcome.done,
        startsOf emptyParams.start [w2pg1, w2pg2]) ∧
    (startsOf emptyParams.start [w2pg1, w2pg2]).Nodup :=
  pagination_yields_batches_in_order_and_terminates w2srv emptyParams 25 false
    initialRateState 2 [w2pg1, w2pg2] ⟨rfl, rfl, rfl, rfl⟩ (by decide)

/-- C3: an HTTP 404 on any page request ends the sequence silently with the
batches yielded so far (nothing, if the first request fails), while any other
HTTP error status escapes to the caller as a fatal outcome after the batches
yielded so far. -/
theorem http_404_terminates_silently_other_errors_propagate
    (server : Option Nat → Response α) (params : Params) (pageSize : Nat)
    (fullResp : Bool) (rate : RateState) (fuel : Nat) (ps : List (Page α))
    (status : Nat)
    (h : chainErr server params.start ps status) (hf : ps.length + 1 ≤ fuel) :
    (get_paginated_resource server params pageSize fullResp rate fuel).map
        (fun r => (r.batches, r.outcome)) =
      some (ps.map (pageBatch fullResp),
        if status = 404 then Outcome.notFound else Outcome.fatal status) := by
  rw [get_paginated_resource_chainErr server params pageSize fullResp rate fuel ps status h hf]
  rfl

/-- Witness for C3: an immediate 404 yields no batches and a silent end. -/
theorem http_404_terminates_silently_witness :
    (get_paginated_resource srv404 emptyParams 25 false initialRateState 1).map
        (fun r => (r.batches, r.outcome)) =
      some (([] : List (Page Nat)).map (pageBatch false),
        if 404 = 404 then Outcome.notFound else Outcome.fatal 404) :=
  http_404_terminates_silently_other_errors_propagate srv404 emptyParams 25 false
    initialRateState 1 [] 404 rfl (by decide)

/-- C10: a 404 on a page request that is not the first still yields every
batch fetched before the failing request and then ends the sequence cleanly
(notFound, not a propagated error). -/
theorem mid_sequence_404_yields_prior_batches_then_ends
    (server : Option Nat → Response α) (params : Params) (pageSize : Nat)
    (fullResp : Bool) (rate : RateState) (fuel : Nat) (ps : List (Page α))
    (_hne : ps ≠ [])
    (h : chainErr server params.start ps 404) (hf : ps.length + 1 ≤ fuel) :
    (get_paginated_resource server params pageSize fullResp rate fuel).map
        (fun r => (r.batches, r.outcome)) =
      some (ps.map (pageBatch fullResp), Outcome.notFound) := by
  rw [get_paginated_resource_chainErr server params pageSize fullResp rate fuel ps 404 h hf]
  rfl

/-- Witness for C10 on the concrete one-page-then-404 resource. -/
theorem mid_sequence_404_witness :
    (get_paginated_resource m404srv emptyParams 25 false initialRateState 2).map
        (fun r => (r.batches, r.outcome)) =
      some ([m404pg].map (pageBatch false), Outcome.notFound) :=
  mid_sequence_404_yields_prior_batches_then_ends m404srv emptyParams 25 false
    initialRateState 2 [m404pg] (List.cons_ne_nil _ _) ⟨rfl, rfl, rfl⟩ (by decide)

/-- C4: because get_paginated_resource mutates the caller's params dict in
place and get_repository_pull_requests passes the same pr_params dict for
every repository of a batch, the second repository's first page request
carries the stale start cursor (25) written during the first repository's
pagination, instead of starting with no cursor. -/
theorem stale_cursor_reused_across_pull_request_fetches :
    (get_repository_pull_requests prAliasingServer [prRepoA, prRepoB]
        initialRateState 5).map
        (fun x => x.1.map (fun r => r.requestedStarts)) =
      some [[none, some 25], [some 25]] ∧
    (some 25 : Option Nat) ≠ none := by
  constructor
  · rfl
  · decide

/-- C5 counterexample: in a batch whose first record lacks the required id
field, the mapping failure escapes and aborts the whole batch: the second,
fully valid record (which maps successfully on its own) is never processed. -/
theorem missing_id_aborts_rest_of_batch_cex :
    process_pullrequest_entities [prNoId, prFull] = ([], some "KeyError: id") ∧
    isOkE (map_pullrequest prFull) = true := by
  constructor
  · rfl
  · rfl

/-- C5 (amended): a record missing a required field (such as id) raises a
mapping failure that aborts processing of it and of every remaining record in
the batch (records before it are already upserted), while a record missing
only the optional fields description, reviewers and participants maps
successfully, with a null description, an empty reviewers list and the author
as sole participant. -/
theorem mapping_failure_aborts_batch_optional_fields_tolerated :
    (∀ (pre : List Json) (bad : Json) (rest : List Json) (e : String),
      (∀ p ∈ pre, isOkE (map_pullrequest p) = true) →
      map_pullrequest bad = Except.error e →
      process_pullrequest_entities (pre ++ bad :: rest) =
        (pre.filterMap (fun p => toOptE (map_pullrequest p)), some e)) ∧
    (∀ (idn : Int) (title : String) (created updated : Nat)
        (mergeCommit statev ownerName href destination sourcev slug authorEmail : String),
      map_pullrequest (mkPRNoOptional idn title created updated mergeCommit statev
          ownerName href destination sourcev slug authorEmail) =
        Except.ok (entityNoOptional idn title created updated mergeCommit statev
          ownerName href destination sourcev slug authorEmail)) := by
  constructor
  · intro pre bad rest e hpre hbad
    exact process_pullrequest_entities_abort bad rest e hbad pre hpre
  · intro idn title created updated mergeCommit statev ownerName href destination
      sourcev slug authorEmail
    rfl

/-- Witness for the amended C5 theorem: a valid record, then the record
missing id, then another valid record; and a concrete optional-free record. -/
theorem mapping_failure_aborts_batch_witness :
    process_pullrequest_entities ([prFull] ++ prNoId :: [prFull]) =
      ([prFull].filterMap (fun p => toOptE (map_pullrequest p)), some "KeyError: id") ∧
    map_pullrequest (mkPRNoOptional 5 "t" 0 0 "mc" "OPEN" "own" "h" "dst" "src" "sl" "ae") =
      Except.ok (entityNoOptional 5 "t" 0 0 "mc" "OPEN" "own" "h" "dst" "src" "sl" "ae") :=
  ⟨mapping_failure_aborts_batch_optional_fields_tolerated.1 [prFull] prNoId [prFull]
      "KeyError: id"
      (by intro p hp; rw [List.mem_singleton] at hp; rw [hp]; rfl) rfl,
    mapping_failure_aborts_batch_optional_fields_tolerated.2 5 "t" 0 0 "mc" "OPEN"
      "own" "h" "dst" "src" "sl" "ae"⟩

/-- C6: with a non-null sink webhook URL and a successfully listed set of
existing project webhooks, provisioning returns the first listed webhook whose
url equals the sink URL and issues no creation call; when none matches it
issues exactly one creation call. -/
theorem project_webhook_dedup_reuse_or_single_create
    (u : String) (server : Option Nat → Response SrcWebhook)
    (createResult : Option SrcWebhook) (rate : RateState) (fuel : Nat)
    (ps : List (Page SrcWebhook))
    (h : chainOk server none ps) (hf : ps.length ≤ fuel) :
    get_or_create_project_webhook (some u) server createResult rate fuel =
      some (match ((ps.map Page.values).flatten).filter (fun w => w.url == u) with
            | [] => (createResult, 1)
            | w :: _ => (some w, 0)) := by
  unfold get_or_create_project_webhook
  rw [get_paginated_resource_chain server emptyParams 25 false rate fuel ps h hf]
  simp only [flattenBatches_values]
  cases ((ps.map Page.values).flatten).filter (fun w => w.url == u) with
  | nil => rfl
  | cons w ws => rfl

/-- Witness for C6: the sink URL matches the second listed webhook, which is
returned with zero creation calls. -/
theorem project_webhook_dedup_witness :
    get_or_create_project_webhook (some "http://hook") whSrv none initialRateState 1 =
      some (match (([whPage].map Page.values).flatten).filter
              (fun w => w.url == "http://hook") with
            | [] => (none, 1)
            | w :: _ => (some w, 0)) :=
  project_webhook_dedup_reuse_or_single_create "http://hook" whSrv none
    initialRateState 1 [whPage] ⟨rfl, rfl⟩ (by decide)

/-- C7 counterexample: for a README consisting of the single line a, the
script produces the string a followed by a newline, which differs from the
lines' text fields joined with newline characters (which would be just a):
every line, the last included, is followed by a newline. -/
theorem readme_join_trailing_newline_cex :
    get_repository_readme readmeSrv initialRateState 1 = some ("a" ++ "\n") ∧
    ("a" ++ "\n") ≠ String.intercalate "\n" ["a"] := by
  constructor
  · rfl
  · decide

/-- C7 (amended): the README property equals the concatenation, across all
fetched pages in order, of each line's text field followed by a newline
character (a missing text field contributing the empty string). -/
theorem readme_concatenates_each_line_text_with_newline
    (server : Option Nat → Response Unit) (rate : RateState) (fuel : Nat)
    (ps : List (Page Unit)) (h : chainOk server none ps) (hf : ps.length ≤ fuel) :
    get_repository_readme server rate fuel =
      some (concatStrings (ps.map (fun p =>
        concatStrings ((p.lines.getD []).map (fun l => l.text.getD "" ++ "\n"))))) := by
  unfold get_repository_readme
  rw [get_paginated_resource_chain server emptyParams 500 true rate fuel ps h hf]
  have hrb := readmeOfBatches_full ps
  have hfun : (parse_repository_file_response : Page Unit → String) =
      (fun p => concatStrings ((p.lines.getD []).map (fun l => l.text.getD "" ++ "\n"))) := by
    funext p
    exact parse_repository_file_response_eq p
  simp only [hrb, hfun]

/-- Witness for the amended C7 theorem on the two-page README. -/
theorem readme_concatenates_witness :
    get_repository_readme rdSrv initialRateState 2 =
      some (concatStrings ([rdPg1, rdPg2].map (fun p =>
        concatStrings ((p.lines.getD []).map (fun l => l.text.getD "" ++ "\n"))))) :=
  readme_concatenates_each_line_text_with_newline rdSrv initialRateState 2
    [rdPg1, rdPg2] ⟨rfl, rfl, rfl, rfl⟩ (by decide)

/-- C8: the epoch-milliseconds to UTC ISO-8601 conversion maps 0 to
1970-01-01T00:00:00Z and 1700000000000 to 2023-11-14T22:13:20Z, in the
YYYY-MM-DDTHH:MM:SSZ shape. -/
theorem convert_to_datetime_epoch_anchors :
    convert_to_datetime 0 = "1970-01-01T00:00:00Z" ∧
    convert_to_datetime 1700000000000 = "2023-11-14T22:13:20Z" := by
  constructor
  · rfl
  · rfl

/-- C9: for every author email value and every list of participant email
values (duplicates included), the mapped pull request's participants relation
is the author's email first, followed by the participants' emails in source
array order, with duplicates preserved. -/
theorem participants_author_first_source_order_with_duplicates
    (authorEmail : Json) (pemails : List Json) :
    mappedParticipants (mkPRParticipants authorEmail pemails) =
      some (Json.arr (authorEmail :: pemails)) := by
  simp [mappedParticipants, map_pullrequest, mkPRParticipants, Json.getReq, Json.getOpt,
    Json.getIdx, Json.elems, lookupField, jsonToDatetime, mapM_loop_extractUserEmail,
    entityParticipants, extractUserDisplayName, exceptBind_ok, exceptMap_ok,
    List.mapM, List.mapM.loop]
